import Mathlib

/-!
Verification of the `@principal-ade/panels` component library.

The definitions below are a shallow embedding of the layout logic in
`src/components/ConfigurablePanelLayout.tsx`, `src/components/ThreePanelLayout.tsx`,
`src/components/PanelConfigurator.tsx`, `src/components/TabGroup.tsx` and
`src/components/SnapCarousel.tsx`.  Panel sizes (CSS percentage units) and pixel
widths are modelled as rationals; the JavaScript numbers involved stay far from
any floating-point edge case in the scenarios treated here, and indices are
modelled as integers.  Asynchronous handlers are modelled by their synchronous
prefix (the guard plus the `flushSync` state updates) and, separately, by the
"settled" transition obtained once the scheduled animation has completed.
-/

namespace Panels

/-! ### Tween engine (`animatePanel` in ConfigurablePanelLayout.tsx / ThreePanelLayout.tsx) -/

/-- A command issued to the imperative panel handle by the tween engine:
either `resize(size)` or `collapse()`. -/
inductive PanelCmd where
  | resize (size : ℚ)
  | collapse
deriving DecidableEq, Repr

/-- The cubic ease-in-out curve of `animatePanel`:
`4p^3` for `p < 0.5`, otherwise `1 - (-2p + 2)^3 / 2`. -/
def easedAt (p : ℚ) : ℚ :=
  if p < 1/2 then 4 * p ^ 3 else 1 - (-2 * p + 2) ^ 3 / 2

/-- One run of the inner `animate` loop of `animatePanel`, which fixes
`steps = 10` and increments `currentStep` at every invocation, so the
`progress >= 1` exit test succeeds exactly at the tenth invocation.
The structural argument `r` counts the invocations still ahead of the exit
invocation; the invocation being executed has `currentStep = 10 - r`.
`avail k` tells whether `panelRef.current` is still non-null when the
invocation with `currentStep = k` runs (the loop returns silently when it is
not).  The result is the list of handle commands issued together with the
number of times the completion callback fires. -/
def animateGo (avail : ℕ → Bool) (fromSize toSize : ℚ) : ℕ → List PanelCmd × ℕ
  | 0 =>
    if avail 10 = false then ([], 0)
    else ([if toSize = 0 then PanelCmd.collapse else PanelCmd.resize toSize], 1)
  | r + 1 =>
    let k := 10 - (r + 1)
    if avail k = false then ([], 0)
    else
      let eased := easedAt ((k : ℚ) / 10)
      let rest := animateGo avail fromSize toSize r
      (PanelCmd.resize (fromSize + (toSize - fromSize) * eased) :: rest.1, rest.2)

/-- `animatePanel`: bail out up front if the handle is already gone
(`avail 0` models the `if (!panelRef.current) return` at function entry),
otherwise run the loop starting at the invocation with `currentStep = 1`. -/
def animatePanelRun (avail : ℕ → Bool) (fromSize toSize : ℚ) : List PanelCmd × ℕ :=
  if avail 0 = false then ([], 0) else animateGo avail fromSize toSize 9

/-- C3: with the handle available throughout, a tween run issues exactly ten
size updates, the k-th using the eased position at `progress = k/10`; the
final step is `collapse()` exactly when `toSize = 0` and `resize(toSize)`
otherwise, and the completion callback fires exactly once, within that step. -/
theorem tween_run_ten_eased_steps (f t : ℚ) :
    animatePanelRun (fun _ => true) f t =
      ([PanelCmd.resize (f + (t - f) * easedAt (1/10)),
        PanelCmd.resize (f + (t - f) * easedAt (2/10)),
        PanelCmd.resize (f + (t - f) * easedAt (3/10)),
        PanelCmd.resize (f + (t - f) * easedAt (4/10)),
        PanelCmd.resize (f + (t - f) * easedAt (5/10)),
        PanelCmd.resize (f + (t - f) * easedAt (6/10)),
        PanelCmd.resize (f + (t - f) * easedAt (7/10)),
        PanelCmd.resize (f + (t - f) * easedAt (8/10)),
        PanelCmd.resize (f + (t - f) * easedAt (9/10)),
        if t = 0 then PanelCmd.collapse else PanelCmd.resize t], 1) := by
  rfl

/-- C8: if the handle disappears at the j-th loop invocation (and was present
before), the run issues only the first `j - 1` eased resizes, then stops:
no further resize or collapse call is made and the completion callback never
fires. -/
theorem tween_run_stops_when_handle_gone (avail : ℕ → Bool) (f t : ℚ) (j : ℕ)
    (hj : avail j = false) (hbefore : ∀ i, i < j → avail i = true) (hle : j ≤ 10) :
    animatePanelRun avail f t =
      ((List.range (j - 1)).map fun i =>
        PanelCmd.resize (f + (t - f) * easedAt ((i + 1 : ℚ) / 10)), 0) := by
  interval_cases j <;>
    simp_all [animatePanelRun, animateGo, List.range_succ] <;>
    norm_num

/-- Witness for C8 at the concrete cutoff `j = 5`. -/
theorem tween_run_stops_when_handle_gone_witness :
    animatePanelRun (fun k => decide (k < 5)) 20 0 =
      ((List.range 4).map fun i =>
        PanelCmd.resize (20 + (0 - 20) * easedAt ((i + 1 : ℚ) / 10)), 0) := by
  have h := tween_run_stops_when_handle_gone (fun k => decide (k < 5)) 20 0 5
    (by decide) (by intro i hi; simp [hi]) (by decide)
  simpa using h

/-! ### ConfigurablePanelLayout (ConfigurablePanelLayout.tsx) -/

/-- JavaScript `Math.round(x * 1000) / 1000`, applied by the handlers to every
size read from `panelGroupRef.current?.getLayout()` (`Math.round` rounds
half-way cases toward positive infinity). -/
def roundTo3 (x : ℚ) : ℚ := (⌊x * 1000 + 1/2⌋ : ℚ) / 1000

/-- JavaScript `x || y` on numbers: `y` when `x` is falsy (zero), else `x`. -/
def jsOr (x y : ℚ) : ℚ := if x = 0 then y else x

/-- The props and derived constants of one `ConfigurablePanelLayout` instance:
the `collapsiblePanels` flags, the activity of each slot (`layout.left` etc.
non-null) and `computedDefaultSizes`. -/
structure CProps where
  collapsibleLeft : Bool
  collapsibleMiddle : Bool
  collapsibleRight : Bool
  isLeftActive : Bool
  isMiddleActive : Bool
  isRightActive : Bool
  defaultLeft : ℚ
  defaultMiddle : ℚ
  defaultRight : ℚ
deriving DecidableEq, Repr

/-- The mutable component state of `ConfigurablePanelLayout`: per-region
collapsed flags, animating flags, the drag flag, current sizes and the
remembered `lastExpanded*Size` values. -/
structure CState where
  leftCollapsed : Bool
  middleCollapsed : Bool
  rightCollapsed : Bool
  leftAnimating : Bool
  middleAnimating : Bool
  rightAnimating : Bool
  isDragging : Bool
  leftSize : ℚ
  middleSize : ℚ
  rightSize : ℚ
  lastExpandedLeftSize : ℚ
  lastExpandedMiddleSize : ℚ
  lastExpandedRightSize : ℚ
deriving DecidableEq, Repr

/-! Synchronous prefixes of the six toggle handlers: the guard
`if (xAnimating || isDragging || !collapsiblePanels.x) return;` followed by the
`flushSync` block, which sets all three animating flags and the toggled
region's collapsed flag.  The boolean result records whether an animation was
scheduled (the code past the guard always schedules one). -/

/-- Synchronous part of `handleLeftCollapse`. -/
def configLeftCollapseSync (p : CProps) (st : CState) : CState × Bool :=
  if st.leftAnimating || st.isDragging || !p.collapsibleLeft then (st, false)
  else
    ({ st with leftAnimating := true, middleAnimating := true,
               rightAnimating := true, leftCollapsed := true }, true)

/-- Synchronous part of `handleLeftExpand`. -/
def configLeftExpandSync (p : CProps) (st : CState) : CState × Bool :=
  if st.leftAnimating || st.isDragging || !p.collapsibleLeft then (st, false)
  else
    ({ st with leftAnimating := true, middleAnimating := true,
               rightAnimating := true, leftCollapsed := false }, true)

/-- Synchronous part of `handleMiddleCollapse`. -/
def configMiddleCollapseSync (p : CProps) (st : CState) : CState × Bool :=
  if st.middleAnimating || st.isDragging || !p.collapsibleMiddle then (st, false)
  else
    ({ st with leftAnimating := true, middleAnimating := true,
               rightAnimating := true, middleCollapsed := true }, true)

/-- Synchronous part of `handleMiddleExpand`. -/
def configMiddleExpandSync (p : CProps) (st : CState) : CState × Bool :=
  if st.middleAnimating || st.isDragging || !p.collapsibleMiddle then (st, false)
  else
    ({ st with leftAnimating := true, middleAnimating := true,
               rightAnimating := true, middleCollapsed := false }, true)

/-- Synchronous part of `handleRightCollapse`. -/
def configRightCollapseSync (p : CProps) (st : CState) : CState × Bool :=
  if st.rightAnimating || st.isDragging || !p.collapsibleRight then (st, false)
  else
    ({ st with leftAnimating := true, middleAnimating := true,
               rightAnimating := true, rightCollapsed := true }, true)

/-- Synchronous part of `handleRightExpand`. -/
def configRightExpandSync (p : CProps) (st : CState) : CState × Bool :=
  if st.rightAnimating || st.isDragging || !p.collapsibleRight then (st, false)
  else
    ({ st with leftAnimating := true, middleAnimating := true,
               rightAnimating := true, rightCollapsed := false }, true)

/-! Settled transitions: the guard, the redistribution computed inside the
scheduled `requestAnimationFrame` callback, and the state written by the
`animateMultiplePanels` completion callback, composed into one step.
`currentLayout` models the `panelGroupRef.current?.getLayout()` read (`none`
when the group handle is unavailable, in which case the code falls back to the
state sizes via `?? leftSize` etc.). -/

/-- Settled `handleLeftCollapse`: proportional redistribution of the freed
space over middle and right (`(actual / remainingTotal) * 100`), with the
`remainingTotal = 0` fallback giving 50 to each active remaining region; the
from-size read for the left tween feeds only the animation, not the settled
state, and is omitted. -/
def configLeftCollapse (p : CProps) (st : CState)
    (currentLayout : Option (ℚ × ℚ × ℚ)) : CState :=
  if st.leftAnimating || st.isDragging || !p.collapsibleLeft then st
  else
    let actualMiddleSize := roundTo3 ((currentLayout.map fun l => l.2.1).getD st.middleSize)
    let actualRightSize := roundTo3 ((currentLayout.map fun l => l.2.2).getD st.rightSize)
    let remainingTotal := actualMiddleSize + actualRightSize
    let newMiddleSize :=
      if remainingTotal > 0 then actualMiddleSize / remainingTotal * 100
      else if p.isMiddleActive then 50 else 0
    let newRightSize :=
      if remainingTotal > 0 then actualRightSize / remainingTotal * 100
      else if p.isRightActive then 50 else 0
    { st with
        leftCollapsed := true
        lastExpandedMiddleSize :=
          if newMiddleSize > 0 then newMiddleSize else st.lastExpandedMiddleSize
        lastExpandedRightSize :=
          if newRightSize > 0 then newRightSize else st.lastExpandedRightSize
        leftSize := 0
        middleSize := newMiddleSize
        rightSize := newRightSize
        leftAnimating := false
        middleAnimating := false
        rightAnimating := false }

/-- Settled `handleLeftExpand`: the target is
`lastExpandedLeftSize || computedDefaultSizes.left`, and middle and right
shrink proportionally into `100 - target`, with a `spaceForOthers / 2`
fallback for active regions when their combined current size is zero. -/
def configLeftExpand (p : CProps) (st : CState)
    (currentLayout : Option (ℚ × ℚ × ℚ)) : CState :=
  if st.leftAnimating || st.isDragging || !p.collapsibleLeft then st
  else
    let actualMiddleSize := roundTo3 ((currentLayout.map fun l => l.2.1).getD st.middleSize)
    let actualRightSize := roundTo3 ((currentLayout.map fun l => l.2.2).getD st.rightSize)
    let targetLeftSize := jsOr st.lastExpandedLeftSize p.defaultLeft
    let spaceForOthers := 100 - targetLeftSize
    let currentOthersTotal := actualMiddleSize + actualRightSize
    let newMiddleSize :=
      if currentOthersTotal > 0 then actualMiddleSize / currentOthersTotal * spaceForOthers
      else if p.isMiddleActive then spaceForOthers / 2 else 0
    let newRightSize :=
      if currentOthersTotal > 0 then actualRightSize / currentOthersTotal * spaceForOthers
      else if p.isRightActive then spaceForOthers / 2 else 0
    { st with
        leftCollapsed := false
        lastExpandedMiddleSize :=
          if newMiddleSize > 0 then newMiddleSize else st.lastExpandedMiddleSize
        lastExpandedRightSize :=
          if newRightSize > 0 then newRightSize else st.lastExpandedRightSize
        leftSize := targetLeftSize
        middleSize := newMiddleSize
        rightSize := newRightSize
        leftAnimating := false
        middleAnimating := false
        rightAnimating := false }

/-- Settled `handleRightCollapse` (mirror image of the left one). -/
def configRightCollapse (p : CProps) (st : CState)
    (currentLayout : Option (ℚ × ℚ × ℚ)) : CState :=
  if st.rightAnimating || st.isDragging || !p.collapsibleRight then st
  else
    let actualLeftSize := roundTo3 ((currentLayout.map fun l => l.1).getD st.leftSize)
    let actualMiddleSize := roundTo3 ((currentLayout.map fun l => l.2.1).getD st.middleSize)
    let remainingTotal := actualLeftSize + actualMiddleSize
    let newLeftSize :=
      if remainingTotal > 0 then actualLeftSize / remainingTotal * 100
      else if p.isLeftActive then 50 else 0
    let newMiddleSize :=
      if remainingTotal > 0 then actualMiddleSize / remainingTotal * 100
      else if p.isMiddleActive then 50 else 0
    { st with
        rightCollapsed := true
        lastExpandedLeftSize :=
          if newLeftSize > 0 then newLeftSize else st.lastExpandedLeftSize
        lastExpandedMiddleSize :=
          if newMiddleSize > 0 then newMiddleSize else st.lastExpandedMiddleSize
        leftSize := newLeftSize
        middleSize := newMiddleSize
        rightSize := 0
        leftAnimating := false
        middleAnimating := false
        rightAnimating := false }

/-- Settled `handleRightExpand` (mirror image of the left one). -/
def configRightExpand (p : CProps) (st : CState)
    (currentLayout : Option (ℚ × ℚ × ℚ)) : CState :=
  if st.rightAnimating || st.isDragging || !p.collapsibleRight then st
  else
    let actualLeftSize := roundTo3 ((currentLayout.map fun l => l.1).getD st.leftSize)
    let actualMiddleSize := roundTo3 ((currentLayout.map fun l => l.2.1).getD st.middleSize)
    let targetRightSize := jsOr st.lastExpandedRightSize p.defaultRight
    let spaceForOthers := 100 - targetRightSize
    let currentOthersTotal := actualLeftSize + actualMiddleSize
    let newLeftSize :=
      if currentOthersTotal > 0 then actualLeftSize / currentOthersTotal * spaceForOthers
      else if p.isLeftActive then spaceForOthers / 2 else 0
    let newMiddleSize :=
      if currentOthersTotal > 0 then actualMiddleSize / currentOthersTotal * spaceForOthers
      else if p.isMiddleActive then spaceForOthers / 2 else 0
    { st with
        rightCollapsed := false
        lastExpandedLeftSize :=
          if newLeftSize > 0 then newLeftSize else st.lastExpandedLeftSize
        lastExpandedMiddleSize :=
          if newMiddleSize > 0 then newMiddleSize else st.lastExpandedMiddleSize
        leftSize := newLeftSize
        middleSize := newMiddleSize
        rightSize := targetRightSize
        leftAnimating := false
        middleAnimating := false
        rightAnimating := false }

/-- `handleLeftResize`: during any programmatic animation the event is
dropped; otherwise the size is recorded and, when positive, the remembered
expanded size is updated and the collapsed flag cleared. -/
def configLeftResize (st : CState) (size : ℚ) : CState :=
  if !st.leftAnimating && !st.middleAnimating && !st.rightAnimating then
    { st with
        leftSize := size
        lastExpandedLeftSize := if size > 0 then size else st.lastExpandedLeftSize
        leftCollapsed := if size > 0 then false else st.leftCollapsed }
  else st

/-- `handleMiddleResize` (same shape as the left one). -/
def configMiddleResize (st : CState) (size : ℚ) : CState :=
  if !st.leftAnimating && !st.middleAnimating && !st.rightAnimating then
    { st with
        middleSize := size
        lastExpandedMiddleSize := if size > 0 then size else st.lastExpandedMiddleSize
        middleCollapsed := if size > 0 then false else st.middleCollapsed }
  else st

/-- `handleRightResize` (same shape as the left one). -/
def configRightResize (st : CState) (size : ℚ) : CState :=
  if !st.leftAnimating && !st.middleAnimating && !st.rightAnimating then
    { st with
        rightSize := size
        lastExpandedRightSize := if size > 0 then size else st.lastExpandedRightSize
        rightCollapsed := if size > 0 then false else st.rightCollapsed }
  else st

/-- `handleDragEnd`: the sizes reported to `onPanelResize`, substituting the
remembered `lastExpanded*Size` for every currently collapsed region. -/
def configHandleDragEnd (st : CState) : ℚ × ℚ × ℚ :=
  (if st.leftCollapsed then st.lastExpandedLeftSize else st.leftSize,
   if st.middleCollapsed then st.lastExpandedMiddleSize else st.middleSize,
   if st.rightCollapsed then st.lastExpandedRightSize else st.rightSize)

/-- The redistribution rule exactly as the specification words it: each other
active region receives `oldSize / sumOfOtherActiveSizes * 100`, falling back
to an equal split (`100 / numberOfActiveOthers`) when the other active
regions all have zero size. -/
def specRedistributedSize (oldSize sumOfOtherActiveSizes : ℚ)
    (numActiveOthers : ℕ) : ℚ :=
  if sumOfOtherActiveSizes > 0 then oldSize / sumOfOtherActiveSizes * 100
  else 100 / numActiveOthers

/-! ### ThreePanelLayout (ThreePanelLayout.tsx) -/

/-- The mutable component state of `ThreePanelLayout` (no middle collapse and
no remembered expanded sizes there). -/
structure TState where
  leftCollapsed : Bool
  rightCollapsed : Bool
  leftAnimating : Bool
  rightAnimating : Bool
  isDragging : Bool
  leftSize : ℚ
  rightSize : ℚ
deriving DecidableEq, Repr

/-- Synchronous part of `ThreePanelLayout.handleLeftCollapse`: the guard reads
only the left animating flag, and the `flushSync` block sets only the left
flags. -/
def threeLeftCollapseSync (collapsibleLeft : Bool) (st : TState) : TState × Bool :=
  if st.leftAnimating || st.isDragging || !collapsibleLeft then (st, false)
  else ({ st with leftAnimating := true, leftCollapsed := true }, true)

/-- Synchronous part of `ThreePanelLayout.handleLeftExpand`. -/
def threeLeftExpandSync (collapsibleLeft : Bool) (st : TState) : TState × Bool :=
  if st.leftAnimating || st.isDragging || !collapsibleLeft then (st, false)
  else ({ st with leftAnimating := true, leftCollapsed := false }, true)

/-- Synchronous part of `ThreePanelLayout.handleRightCollapse`. -/
def threeRightCollapseSync (collapsibleRight : Bool) (st : TState) : TState × Bool :=
  if st.rightAnimating || st.isDragging || !collapsibleRight then (st, false)
  else ({ st with rightAnimating := true, rightCollapsed := true }, true)

/-- Synchronous part of `ThreePanelLayout.handleRightExpand`. -/
def threeRightExpandSync (collapsibleRight : Bool) (st : TState) : TState × Bool :=
  if st.rightAnimating || st.isDragging || !collapsibleRight then (st, false)
  else ({ st with rightAnimating := true, rightCollapsed := false }, true)

/-- The animating flags of `ConfigurablePanelLayout` agree: every transition
of the component sets or clears the three flags together, so any state the
component actually reaches satisfies this. -/
def animFlagsAgree (st : CState) : Prop :=
  st.leftAnimating = st.middleAnimating ∧ st.middleAnimating = st.rightAnimating

/-- A `ConfigurablePanelLayout` instance with the default 20/60/20 sizes and
all three slots filled, used as concrete input by the witnesses. -/
def exampleProps : CProps :=
  { collapsibleLeft := true, collapsibleMiddle := false, collapsibleRight := true,
    isLeftActive := true, isMiddleActive := true, isRightActive := true,
    defaultLeft := 20, defaultMiddle := 60, defaultRight := 20 }

/-- The matching settled rest state: nothing collapsed, nothing animating,
sizes 20/60/20 and the same remembered expanded sizes. -/
def exampleState : CState :=
  { leftCollapsed := false, middleCollapsed := false, rightCollapsed := false,
    leftAnimating := false, middleAnimating := false, rightAnimating := false,
    isDragging := false,
    leftSize := 20, middleSize := 60, rightSize := 20,
    lastExpandedLeftSize := 20, lastExpandedMiddleSize := 60,
    lastExpandedRightSize := 20 }

/-- `exampleState` while an animation is in flight (all three flags set, as
every toggle handler of `ConfigurablePanelLayout` does). -/
def exampleAnimState : CState :=
  { exampleState with leftAnimating := true, middleAnimating := true,
                      rightAnimating := true }

end Panels

namespace Panels

/-! Smoke checks for the tween and layout models. -/

example : roundTo3 60 = 60 := by norm_num [roundTo3]

example : roundTo3 (1/3) = 333/1000 := by norm_num [roundTo3]

example :
    (configLeftCollapse exampleProps exampleState (some (20, 60, 20))).middleSize = 75 := by
  norm_num [configLeftCollapse, exampleProps, exampleState, roundTo3]

example :
    (configLeftCollapse exampleProps exampleState (some (20, 60, 20))).rightSize = 25 := by
  norm_num [configLeftCollapse, exampleProps, exampleState, roundTo3]

example :
    (configLeftCollapse exampleProps exampleState (some (20, 60, 20))).leftSize = 0 := by
  norm_num [configLeftCollapse, exampleProps, exampleState, roundTo3]

/-- Every transition of `ConfigurablePanelLayout` keeps the three animating
flags in agreement: a toggle handler either returns early or sets all three,
the completion callbacks clear all three, and the resize handlers never touch
them. -/
theorem animFlagsAgree_preserved (p : CProps) (st : CState) (size : ℚ)
    (cl : Option (ℚ × ℚ × ℚ)) :
    animFlagsAgree st →
      animFlagsAgree (configLeftCollapseSync p st).1 ∧
      animFlagsAgree (configLeftExpandSync p st).1 ∧
      animFlagsAgree (configMiddleCollapseSync p st).1 ∧
      animFlagsAgree (configMiddleExpandSync p st).1 ∧
      animFlagsAgree (configRightCollapseSync p st).1 ∧
      animFlagsAgree (configRightExpandSync p st).1 ∧
      animFlagsAgree (configLeftCollapse p st cl) ∧
      animFlagsAgree (configLeftExpand p st cl) ∧
      animFlagsAgree (configRightCollapse p st cl) ∧
      animFlagsAgree (configRightExpand p st cl) ∧
      animFlagsAgree (configLeftResize st size) ∧
      animFlagsAgree (configMiddleResize st size) ∧
      animFlagsAgree (configRightResize st size) := by
  intro h
  refine ⟨?_, ?_, ?_, ?_, ?_, ?_, ?_, ?_, ?_, ?_, ?_, ?_, ?_⟩ <;>
    simp only [animFlagsAgree, configLeftCollapseSync, configLeftExpandSync,
      configMiddleCollapseSync, configMiddleExpandSync, configRightCollapseSync,
      configRightExpandSync, configLeftCollapse, configLeftExpand,
      configRightCollapse, configRightExpand, configLeftResize,
      configMiddleResize, configRightResize] <;>
    split_ifs <;> simp_all [animFlagsAgree]

/-- C2 (amended): in `ConfigurablePanelLayout`, whose toggle handlers set all
three animating flags together (so that the flags agree in every reachable
state), a collapse or expand request on any region while any region is
mid-animation is rejected by the guard: the state is unchanged and no
animation is scheduled.  (In `ThreePanelLayout` the guard reads only the
toggled region's own flag, so the unamended claim fails there; see the
counterexample.) -/
theorem config_toggle_noop_while_any_region_animating (p : CProps) (st : CState)
    (hagree : animFlagsAgree st)
    (hsome : st.leftAnimating = true ∨ st.middleAnimating = true ∨
      st.rightAnimating = true) :
    configLeftCollapseSync p st = (st, false) ∧
    configLeftExpandSync p st = (st, false) ∧
    configMiddleCollapseSync p st = (st, false) ∧
    configMiddleExpandSync p st = (st, false) ∧
    configRightCollapseSync p st = (st, false) ∧
    configRightExpandSync p st = (st, false) := by
  obtain ⟨h1, h2⟩ := hagree
  have hl : st.leftAnimating = true := by
    rcases hsome with h | h | h
    · exact h
    · exact h1.trans h
    · exact (h1.trans h2).trans h
  have hm : st.middleAnimating = true := h1.symm.trans hl
  have hr : st.rightAnimating = true := h2.symm.trans hm
  simp [configLeftCollapseSync, configLeftExpandSync, configMiddleCollapseSync,
    configMiddleExpandSync, configRightCollapseSync, configRightExpandSync,
    hl, hm, hr]

/-- Witness for the amended C2 at a concrete mid-animation state. -/
theorem config_toggle_noop_while_any_region_animating_witness :
    configLeftCollapseSync exampleProps exampleAnimState = (exampleAnimState, false) ∧
    configLeftExpandSync exampleProps exampleAnimState = (exampleAnimState, false) ∧
    configMiddleCollapseSync exampleProps exampleAnimState = (exampleAnimState, false) ∧
    configMiddleExpandSync exampleProps exampleAnimState = (exampleAnimState, false) ∧
    configRightCollapseSync exampleProps exampleAnimState = (exampleAnimState, false) ∧
    configRightExpandSync exampleProps exampleAnimState = (exampleAnimState, false) :=
  config_toggle_noop_while_any_region_animating exampleProps exampleAnimState
    ⟨rfl, rfl⟩ (Or.inl rfl)

/-- C2 (counterexample): in `ThreePanelLayout`, a collapse request on the left
region while only the right region is mid-animation passes the guard: the
left flags change and a new animation is scheduled, so the toggle is not a
no-op. -/
theorem three_toggle_during_other_animation_counterexample :
    ({ leftCollapsed := false, rightCollapsed := false, leftAnimating := false,
       rightAnimating := true, isDragging := false, leftSize := 20,
       rightSize := 20 } : TState).rightAnimating = true ∧
    (threeLeftCollapseSync true
      { leftCollapsed := false, rightCollapsed := false, leftAnimating := false,
        rightAnimating := true, isDragging := false, leftSize := 20,
        rightSize := 20 }).2 = true ∧
    (threeLeftCollapseSync true
      { leftCollapsed := false, rightCollapsed := false, leftAnimating := false,
        rightAnimating := true, isDragging := false, leftSize := 20,
        rightSize := 20 }).1.leftCollapsed = true ∧
    (threeLeftCollapseSync true
      { leftCollapsed := false, rightCollapsed := false, leftAnimating := false,
        rightAnimating := true, isDragging := false, leftSize := 20,
        rightSize := 20 }).1.leftAnimating = true := by
  simp [threeLeftCollapseSync]

/-- C1 (amended): collapsing the left region settles it at 0 and redistributes
the row proportionally over the rounded current middle and right sizes
(`actual / remainingTotal * 100`); when the remaining total is zero the code
falls back to a flat 50 for each *active* remaining region (not to an equal
split of 100 among the active ones, as the unamended claim states). -/
theorem config_left_collapse_redistributes (p : CProps) (st : CState) (l m r : ℚ)
    (hc : p.collapsibleLeft = true) (ha : st.leftAnimating = false)
    (hd : st.isDragging = false) :
    (roundTo3 m + roundTo3 r > 0 →
      (configLeftCollapse p st (some (l, m, r))).leftSize = 0 ∧
      (configLeftCollapse p st (some (l, m, r))).middleSize =
        roundTo3 m / (roundTo3 m + roundTo3 r) * 100 ∧
      (configLeftCollapse p st (some (l, m, r))).rightSize =
        roundTo3 r / (roundTo3 m + roundTo3 r) * 100) ∧
    (¬ roundTo3 m + roundTo3 r > 0 →
      (configLeftCollapse p st (some (l, m, r))).leftSize = 0 ∧
      (configLeftCollapse p st (some (l, m, r))).middleSize =
        (if p.isMiddleActive then 50 else 0) ∧
      (configLeftCollapse p st (some (l, m, r))).rightSize =
        (if p.isRightActive then 50 else 0)) := by
  constructor <;> intro h <;>
    simp [configLeftCollapse, hc, ha, hd, h]

/-- Witness for the amended C1: the documented 20/60/20 scenario settles at
left 0, middle 75, right 25. -/
theorem config_left_collapse_redistributes_witness :
    (configLeftCollapse exampleProps exampleState (some (20, 60, 20))).leftSize = 0 ∧
    (configLeftCollapse exampleProps exampleState (some (20, 60, 20))).middleSize = 75 ∧
    (configLeftCollapse exampleProps exampleState (some (20, 60, 20))).rightSize = 25 := by
  have h := (config_left_collapse_redistributes exampleProps exampleState 20 60 20
    rfl rfl rfl).1 (by norm_num [roundTo3])
  refine ⟨h.1, ?_, ?_⟩
  · rw [h.2.1]; norm_num [roundTo3]
  · rw [h.2.2]; norm_num [roundTo3]

/-- C1 (counterexample): when the only other active region (the middle) has
zero size, the fallback settles it at 50, while the claim's "equal split
among the active other regions" would give it 100. -/
theorem config_left_collapse_fallback_counterexample :
    (configLeftCollapse
        { collapsibleLeft := true, collapsibleMiddle := false,
          collapsibleRight := true, isLeftActive := true, isMiddleActive := true,
          isRightActive := false, defaultLeft := 50, defaultMiddle := 50,
          defaultRight := 0 }
        { leftCollapsed := false, middleCollapsed := true, rightCollapsed := false,
          leftAnimating := false, middleAnimating := false, rightAnimating := false,
          isDragging := false, leftSize := 100, middleSize := 0, rightSize := 0,
          lastExpandedLeftSize := 100, lastExpandedMiddleSize := 50,
          lastExpandedRightSize := 0 }
        (some (100, 0, 0))).middleSize = 50 ∧
    specRedistributedSize 0 0 1 = 100 ∧ (50 : ℚ) ≠ 100 := by
  norm_num [configLeftCollapse, specRedistributedSize, roundTo3]

/-- C4: the expand target of `handleLeftExpand` is the remembered
`lastExpandedLeftSize` when it is nonzero and the computed default otherwise;
consequently a settled collapse followed by a settled expand, starting from a
state whose remembered size matches its current size (as after any drag or
initial mount) with no manual resize in between, restores the left region to
exactly its pre-collapse size. -/
theorem config_collapse_then_expand_restores (p : CProps) (st : CState)
    (hc : p.collapsibleLeft = true) (ha : st.leftAnimating = false)
    (hd : st.isDragging = false)
    (hlast : st.lastExpandedLeftSize = st.leftSize) (hpos : 0 < st.leftSize) :
    (configLeftExpand p (configLeftCollapse p st none) none).leftSize = st.leftSize ∧
    (configLeftExpand p (configLeftCollapse p st none) none).leftCollapsed = false ∧
    (∀ s : CState, s.leftAnimating = false → s.isDragging = false →
      (configLeftExpand p s none).leftSize =
        (if s.lastExpandedLeftSize = 0 then p.defaultLeft else s.lastExpandedLeftSize)) := by
  refine ⟨?_, ?_, ?_⟩
  · simp [configLeftCollapse, configLeftExpand, jsOr, hc, ha, hd, hlast, hpos.ne']
  · simp [configLeftCollapse, configLeftExpand, jsOr, hc, ha, hd]
  · intro s hsa hsd
    simp [configLeftExpand, jsOr, hc, hsa, hsd]

/-- Witness for C4 at the concrete 20/60/20 instance. -/
theorem config_collapse_then_expand_restores_witness :
    (configLeftExpand exampleProps
      (configLeftCollapse exampleProps exampleState none) none).leftSize = 20 :=
  (config_collapse_then_expand_restores exampleProps exampleState
    rfl rfl rfl rfl (by decide)).1

/-- C5: on drag end, `onPanelResize` receives the current size for every
expanded region and the remembered `lastExpanded*Size` in place of the (zero)
current size for every collapsed region; in particular, after a settled left
collapse the callback still reports the pre-collapse left size. -/
theorem config_drag_end_reports_expanded_sizes (p : CProps) (st : CState)
    (hc : p.collapsibleLeft = true) (ha : st.leftAnimating = false)
    (hd : st.isDragging = false) :
    (st.leftCollapsed = true →
      (configHandleDragEnd st).1 = st.lastExpandedLeftSize) ∧
    (st.leftCollapsed = false → (configHandleDragEnd st).1 = st.leftSize) ∧
    (st.middleCollapsed = true →
      (configHandleDragEnd st).2.1 = st.lastExpandedMiddleSize) ∧
    (st.middleCollapsed = false → (configHandleDragEnd st).2.1 = st.middleSize) ∧
    (st.rightCollapsed = true →
      (configHandleDragEnd st).2.2 = st.lastExpandedRightSize) ∧
    (st.rightCollapsed = false → (configHandleDragEnd st).2.2 = st.rightSize) ∧
    (st.lastExpandedLeftSize = st.leftSize →
      (configHandleDragEnd (configLeftCollapse p st none)).1 = st.leftSize) := by
  refine ⟨?_, ?_, ?_, ?_, ?_, ?_, ?_⟩ <;> intro h <;>
    simp [configHandleDragEnd, configLeftCollapse, hc, ha, hd, h]

/-- Witness for C5 at a concrete state with the left region collapsed. -/
theorem config_drag_end_reports_expanded_sizes_witness :
    (configHandleDragEnd
      { exampleState with leftCollapsed := true, leftSize := 0 }).1 = 20 :=
  (config_drag_end_reports_expanded_sizes exampleProps
    { exampleState with leftCollapsed := true, leftSize := 0 }
    rfl rfl rfl).1 rfl

/-- C10: while any of the three regions is animating programmatically, the
`onResize` handlers leave the whole state unchanged; when none is animating,
a resize event records the new size, and a positive size additionally updates
the remembered expanded size and clears the region's collapsed flag (a
non-positive size leaves both untouched). -/
theorem config_resize_ignored_while_animating (st : CState) (size : ℚ) :
    ((st.leftAnimating = true ∨ st.middleAnimating = true ∨
        st.rightAnimating = true) →
      configLeftResize st size = st ∧ configMiddleResize st size = st ∧
      configRightResize st size = st) ∧
    (st.leftAnimating = false → st.middleAnimating = false →
      st.rightAnimating = false →
      ((configLeftResize st size).leftSize = size ∧
       (configMiddleResize st size).middleSize = size ∧
       (configRightResize st size).rightSize = size) ∧
      (0 < size →
        (configLeftResize st size).lastExpandedLeftSize = size ∧
        (configLeftResize st size).leftCollapsed = false ∧
        (configMiddleResize st size).lastExpandedMiddleSize = size ∧
        (configMiddleResize st size).middleCollapsed = false ∧
        (configRightResize st size).lastExpandedRightSize = size ∧
        (configRightResize st size).rightCollapsed = false) ∧
      (¬ 0 < size →
        (configLeftResize st size).lastExpandedLeftSize = st.lastExpandedLeftSize ∧
        (configLeftResize st size).leftCollapsed = st.leftCollapsed ∧
        (configMiddleResize st size).lastExpandedMiddleSize = st.lastExpandedMiddleSize ∧
        (configMiddleResize st size).middleCollapsed = st.middleCollapsed ∧
        (configRightResize st size).lastExpandedRightSize = st.lastExpandedRightSize ∧
        (configRightResize st size).rightCollapsed = st.rightCollapsed)) := by
  constructor
  · intro h
    rcases h with h | h | h <;>
      simp [configLeftResize, configMiddleResize, configRightResize, h]
  · intro hl hm hr
    refine ⟨?_, ?_, ?_⟩
    · simp [configLeftResize, configMiddleResize, configRightResize, hl, hm, hr]
    · intro h
      simp [configLeftResize, configMiddleResize, configRightResize, hl, hm, hr, h]
    · intro h
      simp [configLeftResize, configMiddleResize, configRightResize, hl, hm, hr, h]

/-- Witness for C10: a resize event arriving mid-animation is dropped, and
one arriving at rest records the size. -/
theorem config_resize_ignored_while_animating_witness :
    (configLeftResize exampleAnimState 30 = exampleAnimState ∧
     configMiddleResize exampleAnimState 30 = exampleAnimState ∧
     configRightResize exampleAnimState 30 = exampleAnimState) ∧
    (configLeftResize exampleState 30).leftSize = 30 := by
  refine ⟨(config_resize_ignored_while_animating exampleAnimState 30).1
    (Or.inl rfl), ?_⟩
  exact (((config_resize_ignored_while_animating exampleState 30).2
    rfl rfl rfl).1).1

end Panels

namespace Panels

/-! ### TabGroup (TabGroup.tsx) -/

/-- The ordered resolution of a tab group's `panelIds` against the available
panel definitions: `panelIds.map(id => panels.find(p => p.id === id))`
followed by filtering out the unresolved entries; panels are represented by
their ids. -/
def tabPanels (panelIds availablePanels : List String) : List String :=
  panelIds.filterMap fun id => availablePanels.find? fun q => q == id

/-- `safeActiveIndex = Math.min(activeTabIndex, tabPanels.length - 1)` of the
`TabGroup` renderer; a JavaScript number index is modelled as an integer. -/
def safeActiveIndex (activeTabIndex : ℤ) (panelCount : ℕ) : ℤ :=
  min activeTabIndex ((panelCount : ℤ) - 1)

/-- The effective active tab index displayed by `TabGroup` for a given
controlled or uncontrolled `activeTabIndex` and panel configuration. -/
def tabGroupSafeActiveIndex (activeTabIndex : ℤ)
    (panelIds availablePanels : List String) : ℤ :=
  safeActiveIndex activeTabIndex (tabPanels panelIds availablePanels).length

/-- C7 (counterexample): the code only clamps the active index from above, so
a controlled `activeTabIndex = -1` over a non-empty panel list yields an
effective index of -1, outside the claimed range `[0, panelCount-1]`. -/
theorem tab_active_index_below_range_counterexample :
    (tabPanels ["a", "b", "c"] ["a", "b", "c"]).length = 3 ∧
    tabGroupSafeActiveIndex (-1) ["a", "b", "c"] ["a", "b", "c"] = -1 ∧
    ¬ 0 ≤ tabGroupSafeActiveIndex (-1) ["a", "b", "c"] ["a", "b", "c"] := by
  refine ⟨by decide, ?_, ?_⟩ <;>
    simp [tabGroupSafeActiveIndex, safeActiveIndex, tabPanels]

/-- C7 (amended): for every non-negative `activeTabIndex` and non-empty
resolved panel list the effective index lies in `[0, panelCount-1]` (only the
upper clamp is performed by the code, so non-negativity of the input is
required); in particular, when the resolved list shrinks to length 2 while
`activeTabIndex = 2`, the effective index becomes 1. -/
theorem tab_active_index_clamped (i : ℤ) (panelIds availablePanels : List String)
    (hn : 1 ≤ (tabPanels panelIds availablePanels).length) (hi : 0 ≤ i) :
    0 ≤ tabGroupSafeActiveIndex i panelIds availablePanels ∧
    tabGroupSafeActiveIndex i panelIds availablePanels ≤
      ((tabPanels panelIds availablePanels).length : ℤ) - 1 ∧
    tabGroupSafeActiveIndex 2 ["a", "b", "c"] ["a", "b"] = 1 := by
  refine ⟨le_min hi (by omega), min_le_right _ _, ?_⟩
  simp [tabGroupSafeActiveIndex, safeActiveIndex, tabPanels]

/-- Witness for the amended C7: panel list shrunk to 2 with index 2. -/
theorem tab_active_index_clamped_witness :
    0 ≤ tabGroupSafeActiveIndex 2 ["a", "b", "c"] ["a", "b"] ∧
    tabGroupSafeActiveIndex 2 ["a", "b", "c"] ["a", "b"] ≤
      ((tabPanels ["a", "b", "c"] ["a", "b"]).length : ℤ) - 1 := by
  have h := tab_active_index_clamped 2 ["a", "b", "c"] ["a", "b"]
    (by decide) (by decide)
  exact ⟨h.1, h.2.1⟩

/-! ### SnapCarousel (SnapCarousel.tsx) -/

/-- The per-panel width computed by `SnapCarousel` for a given container
width, resolving the CSS it emits: `100%` for one panel; for two panels the
baseline `100%` with the `@container (min-width: 2*minPanelWidth)` override
to `50%` (a CSS `min-width` query matches at widths greater than *or equal
to* its threshold); and `max(minPanelWidth, idealPanelWidth * 100%)` for
three or more panels (the code reaches the `max` branch for every count
other than 1 and 2). -/
def snapPanelWidth (panelCount : ℕ)
    (minPanelWidth idealPanelWidth containerWidth : ℚ) : ℚ :=
  if panelCount = 1 then containerWidth
  else if panelCount = 2 then
    if containerWidth ≥ minPanelWidth * 2 then containerWidth / 2
    else containerWidth
  else max minPanelWidth (idealPanelWidth * containerWidth)

/-- The width policy exactly as the claim words it: for two panels the width
is 100% unless the container width *strictly exceeds* twice the minimum. -/
def claimPanelWidth (panelCount : ℕ)
    (minPanelWidth idealPanelWidth containerWidth : ℚ) : ℚ :=
  if panelCount = 1 then containerWidth
  else if panelCount = 2 then
    if containerWidth > minPanelWidth * 2 then containerWidth / 2
    else containerWidth
  else max minPanelWidth (idealPanelWidth * containerWidth)

/-- C9 (counterexample): at a container width exactly equal to twice the
minimum panel width, the emitted container query already matches, so two
panels render at 50% each, while the claim ("unless the width exceeds twice
the minimum") prescribes 100%. -/
theorem snap_panel_width_boundary_counterexample :
    snapPanelWidth 2 300 (2/5) 600 = 300 ∧
    claimPanelWidth 2 300 (2/5) 600 = 600 ∧ (300 : ℚ) ≠ 600 := by
  norm_num [snapPanelWidth, claimPanelWidth]

/-- C9 (amended): one panel takes the full container; two panels take the
full container below twice the minimum width and half the container at or
above it; three or more panels take
`max(minPanelWidth, idealPanelWidth * containerWidth)`. -/
theorem snap_panel_width_policy (minW idealW cw : ℚ) :
    snapPanelWidth 1 minW idealW cw = cw ∧
    (cw ≥ minW * 2 → snapPanelWidth 2 minW idealW cw = cw / 2) ∧
    (¬ cw ≥ minW * 2 → snapPanelWidth 2 minW idealW cw = cw) ∧
    (∀ n : ℕ, 3 ≤ n → snapPanelWidth n minW idealW cw =
      max minW (idealW * cw)) := by
  refine ⟨by simp [snapPanelWidth], ?_, ?_, ?_⟩
  · intro h; simp [snapPanelWidth, h]
  · intro h; simp [snapPanelWidth, h]
  · intro n hn
    have h1 : n ≠ 1 := by omega
    have h2 : n ≠ 2 := by omega
    simp [snapPanelWidth, h1, h2]

/-- Witness for the amended C9 at the boundary container width. -/
theorem snap_panel_width_policy_witness :
    snapPanelWidth 1 300 (2/5) 600 = 600 ∧
    snapPanelWidth 2 300 (2/5) 600 = 600 / 2 ∧
    snapPanelWidth 3 300 (2/5) 600 = max 300 ((2/5) * 600) := by
  have h := snap_panel_width_policy 300 (2/5) 600
  exact ⟨h.1, h.2.1 (by norm_num), h.2.2.2 3 (by norm_num)⟩

end Panels

namespace Panels

/-! ### PanelConfigurator (PanelConfigurator.tsx) -/

/-- Kind of a panel group (`PanelGroup.type`). -/
inductive GroupKind where
  | tabs
  | tiles
deriving DecidableEq, Repr

/-- A slot of the configurator layout: a single panel id, `null`, or a panel
group (`\x7b type, panels \x7d`; the group `config` object carries no panel ids
and is omitted). -/
inductive Slot where
  | single (id : String)
  | empty
  | group (kind : GroupKind) (panels : List String)
deriving DecidableEq, Repr

/-- The `PanelLayout` object: one slot per position. -/
structure PLayout where
  left : Slot
  middle : Slot
  right : Slot
deriving DecidableEq, Repr

/-- A slot position. -/
inductive Pos where
  | left
  | middle
  | right
deriving DecidableEq, Repr

/-- Read the slot at a position. -/
def PLayout.get (l : PLayout) : Pos → Slot
  | .left => l.left
  | .middle => l.middle
  | .right => l.right

/-- Replace the slot at a position. -/
def PLayout.set (l : PLayout) : Pos → Slot → PLayout
  | .left, s => { l with left := s }
  | .middle, s => { l with middle := s }
  | .right, s => { l with right := s }

/-- `getPanelIdsFromSlot`. -/
def slotIds : Slot → List String
  | .single id => [id]
  | .empty => []
  | .group _ ps => ps

/-- All panel ids appearing in the layout, with multiplicity. -/
def allIds (l : PLayout) : List String :=
  slotIds l.left ++ slotIds l.middle ++ slotIds l.right

/-- `removePanelFromLayout` restricted to one slot: a matching single panel
becomes `null`; a group has the panel filtered out, collapsing to `null` or
to a single panel when zero or one panels remain. -/
def removeFromSlot (slot : Slot) (panelId : String) : Slot :=
  match slot with
  | .single pid => if pid = panelId then .empty else .single pid
  | .empty => .empty
  | .group kind ps =>
      match ps.filter fun q => q != panelId with
      | [] => .empty
      | [p] => .single p
      | filtered => .group kind filtered

/-- `removePanelFromLayout`: remove a panel id from every position. -/
def removePanelFromLayout (l : PLayout) (panelId : String) : PLayout :=
  { left := removeFromSlot l.left panelId,
    middle := removeFromSlot l.middle panelId,
    right := removeFromSlot l.right panelId }

/-- The two-step selection state of the configurator. -/
inductive Selection where
  | idle
  | slotSel (pos : Pos)
  | panelSel (id : String)
deriving DecidableEq, Repr

/-- `handleSlotClick`: select, swap two slots, or assign the selected panel
(toggling membership when the clicked slot is a tab group). -/
def handleSlotClick (sel : Selection) (l : PLayout) (pos : Pos) :
    Selection × PLayout :=
  match sel with
  | .idle => (.slotSel pos, l)
  | .slotSel p =>
      if p = pos then (.slotSel p, l)
      else
        let temp := l.get p
        (.idle, (l.set p (l.get pos)).set pos temp)
  | .panelSel id =>
      match l.get pos with
      | .group .tabs ps =>
          if id ∈ ps then
            (.panelSel id, l.set pos (.group .tabs (ps.filter fun q => q != id)))
          else
            (.panelSel id,
              (removePanelFromLayout l id).set pos (.group .tabs (ps ++ [id])))
      | _ =>
          (.idle, (removePanelFromLayout l id).set pos (.single id))

/-- `handlePanelClick`: select, switch selection, or assign the clicked panel
to the selected slot (toggling membership when that slot is a tab group). -/
def handlePanelClick (sel : Selection) (l : PLayout) (panelId : String) :
    Selection × PLayout :=
  match sel with
  | .idle => (.panelSel panelId, l)
  | .slotSel pos =>
      match l.get pos with
      | .group .tabs ps =>
          if panelId ∈ ps then
            (.slotSel pos,
              l.set pos (.group .tabs (ps.filter fun q => q != panelId)))
          else
            (.slotSel pos,
              (removePanelFromLayout l panelId).set pos
                (.group .tabs (ps ++ [panelId])))
      | _ =>
          (.idle, (removePanelFromLayout l panelId).set pos (.single panelId))
  | .panelSel _ => (.panelSel panelId, l)

/-- `toggleTabMode`: a tab group collapses to its first panel (or `null`);
any other slot becomes a tab group seeded with its single panel, if any. -/
def toggleTabMode (l : PLayout) (pos : Pos) : Selection × PLayout :=
  match l.get pos with
  | .group .tabs ps =>
      (.idle, l.set pos (match ps with | [] => Slot.empty | p :: _ => Slot.single p))
  | slot =>
      (.slotSel pos,
        l.set pos (.group .tabs (match slot with | .single s => [s] | _ => [])))

/-- `handleSlotClear`: empty the slot. -/
def handleSlotClear (l : PLayout) (pos : Pos) : Selection × PLayout :=
  (.idle, l.set pos .empty)

/-- `removePanelFromTabGroup`: filter one panel out of a tab-group slot,
keeping the group structure. -/
def removePanelFromTabGroup (sel : Selection) (l : PLayout) (pos : Pos)
    (panelId : String) : Selection × PLayout :=
  match l.get pos with
  | .group .tabs ps =>
      (sel, l.set pos (.group .tabs (ps.filter fun q => q != panelId)))
  | _ => (sel, l)

/-- The configurator operations the claim enumerates. -/
inductive ConfigOp where
  | slotClick (pos : Pos)
  | panelClick (id : String)
  | tabModeToggle (pos : Pos)
  | slotClear (pos : Pos)
  | tabGroupRemove (pos : Pos) (id : String)
deriving DecidableEq, Repr

/-- One configurator interaction step. -/
def configuratorStep (op : ConfigOp) (sel : Selection) (l : PLayout) :
    Selection × PLayout :=
  match op with
  | .slotClick pos => handleSlotClick sel l pos
  | .panelClick id => handlePanelClick sel l id
  | .tabModeToggle pos => toggleTabMode l pos
  | .slotClear pos => handleSlotClear l pos
  | .tabGroupRemove pos id => removePanelFromTabGroup sel l pos id

end Panels

namespace Panels

/-! Supporting lemmas for the configurator invariant. -/

/-- Removing a panel from a slot filters exactly that id out of the slot's id
list, whatever shape the result collapses to. -/
theorem slotIds_removeFromSlot (s : Slot) (pid : String) :
    slotIds (removeFromSlot s pid) = (slotIds s).filter (fun q => q != pid) := by
  match s with
  | .single id =>
      by_cases h : id = pid <;> simp [removeFromSlot, slotIds, h]
  | .empty => simp [removeFromSlot, slotIds]
  | .group kind ps =>
      cases hf : ps.filter fun q => q != pid with
      | nil => simp [removeFromSlot, slotIds, hf]
      | cons a t => cases t <;> simp [removeFromSlot, slotIds, hf]

/-- Count of an element in a list filtered by `!= pid`. -/
theorem count_filter_ne (xs : List String) (pid a : String) :
    ((xs.filter fun q => q != pid).count a) = if a = pid then 0 else xs.count a := by
  split_ifs with hh
  · subst hh
    refine List.count_eq_zero.mpr fun hmem => ?_
    have := List.of_mem_filter hmem
    simp at this
  · rw [List.count_filter]
    simp [hh]

/-- Replacing one slot by a slot whose id counts are dominated by the old
slot's preserves the no-duplication invariant. -/
theorem nodup_allIds_set_le (l : PLayout) (pos : Pos) (s : Slot)
    (h : (allIds l).Nodup)
    (hc : ∀ a, (slotIds s).count a ≤ (slotIds (l.get pos)).count a) :
    (allIds (l.set pos s)).Nodup := by
  rw [List.nodup_iff_count_le_one] at h ⊢
  intro a
  have h1 := h a
  have h2 := hc a
  cases pos <;>
    simp [allIds, PLayout.set, PLayout.get, List.count_append] at h1 h2 ⊢ <;>
    omega

/-- Removing a panel id everywhere and then writing, at one position, a slot
that holds that id at most once and is otherwise dominated by the old slot
there, preserves the no-duplication invariant. -/
theorem nodup_allIds_remove_set (l : PLayout) (pos : Pos) (pid : String)
    (s : Slot) (h : (allIds l).Nodup)
    (hc : ∀ a, a ≠ pid → (slotIds s).count a ≤ (slotIds (l.get pos)).count a)
    (hpid : (slotIds s).count pid ≤ 1) :
    (allIds ((removePanelFromLayout l pid).set pos s)).Nodup := by
  rw [List.nodup_iff_count_le_one] at h ⊢
  intro a
  have h1 := h a
  by_cases ha : a = pid
  · subst ha
    cases pos <;>
      simp [allIds, PLayout.set, PLayout.get, removePanelFromLayout,
        slotIds_removeFromSlot, count_filter_ne, List.count_append] <;>
      omega
  · have h2 := hc a ha
    cases pos <;>
      simp [allIds, PLayout.set, PLayout.get, removePanelFromLayout,
        slotIds_removeFromSlot, count_filter_ne, List.count_append, ha]
        at h1 h2 ⊢ <;>
      omega

/-- Swapping the contents of two positions preserves the no-duplication
invariant. -/
theorem nodup_allIds_swap (l : PLayout) (p q : Pos) (h : (allIds l).Nodup) :
    (allIds ((l.set p (l.get q)).set q (l.get p))).Nodup := by
  rw [List.nodup_iff_count_le_one] at h ⊢
  intro a
  have h1 := h a
  cases p <;> cases q <;>
    simp [allIds, PLayout.set, PLayout.get, List.count_append] at h1 ⊢ <;>
    omega

/-- C6: starting from a layout in which every panel id occurs at most once
across all slots and groups, every configurator operation (slot click with
any current selection, including the slot swap; panel click with any current
selection; tab-mode toggle; slot clear; tab-group panel removal) yields a
layout in which every panel id still occurs at most once: assignments remove
the panel from its previous location before placing it. -/
theorem configurator_step_preserves_unique_assignment
    (op : ConfigOp) (sel : Selection) (l : PLayout)
    (h : (allIds l).Nodup) :
    (allIds (configuratorStep op sel l).2).Nodup := by
  have hsingle : ∀ (pid : String) (t : Slot), ∀ a, a ≠ pid →
      (slotIds (Slot.single pid)).count a ≤ (slotIds t).count a := by
    intro pid t a ha
    simp [slotIds, List.count_singleton', Ne.symm ha]
  have hsingle1 : ∀ pid : String, (slotIds (Slot.single pid)).count pid ≤ 1 := by
    intro pid
    simp [slotIds]
  cases op with
  | slotClick pos =>
    cases sel with
    | idle =>
        simpa [configuratorStep, handleSlotClick] using h
    | slotSel p =>
        by_cases hp : p = pos
        · simpa [configuratorStep, handleSlotClick, hp] using h
        · simpa [configuratorStep, handleSlotClick, hp] using
            nodup_allIds_swap l p pos h
    | panelSel id =>
        cases hslot : l.get pos with
        | single s =>
            simp only [configuratorStep, handleSlotClick, hslot]
            exact nodup_allIds_remove_set l pos id _ h (hsingle id _) (hsingle1 id)
        | empty =>
            simp only [configuratorStep, handleSlotClick, hslot]
            exact nodup_allIds_remove_set l pos id _ h (hsingle id _) (hsingle1 id)
        | group kind ps =>
            cases kind with
            | tiles =>
                simp only [configuratorStep, handleSlotClick, hslot]
                exact nodup_allIds_remove_set l pos id _ h (hsingle id _)
                  (hsingle1 id)
            | tabs =>
                by_cases hmem : id ∈ ps
                · simp only [configuratorStep, handleSlotClick, hslot,
                    if_pos hmem]
                  refine nodup_allIds_set_le l pos _ h fun a => ?_
                  rw [hslot]
                  simp only [slotIds, count_filter_ne]
                  split_ifs <;> simp
                · simp only [configuratorStep, handleSlotClick, hslot,
                    if_neg hmem]
                  refine nodup_allIds_remove_set l pos id _ h (fun a ha => ?_) ?_
                  · rw [hslot]
                    simp [slotIds, List.count_append, List.count_singleton',
                      Ne.symm ha]
                  · simp [slotIds, List.count_append,
                      List.count_eq_zero_of_not_mem hmem]
  | panelClick id =>
    cases sel with
    | idle =>
        simpa [configuratorStep, handlePanelClick] using h
    | panelSel q =>
        simpa [configuratorStep, handlePanelClick] using h
    | slotSel pos =>
        cases hslot : l.get pos with
        | single s =>
            simp only [configuratorStep, handlePanelClick, hslot]
            exact nodup_allIds_remove_set l pos id _ h (hsingle id _) (hsingle1 id)
        | empty =>
            simp only [configuratorStep, handlePanelClick, hslot]
            exact nodup_allIds_remove_set l pos id _ h (hsingle id _) (hsingle1 id)
        | group kind ps =>
            cases kind with
            | tiles =>
                simp only [configuratorStep, handlePanelClick, hslot]
                exact nodup_allIds_remove_set l pos id _ h (hsingle id _)
                  (hsingle1 id)
            | tabs =>
                by_cases hmem : id ∈ ps
                · simp only [configuratorStep, handlePanelClick, hslot,
                    if_pos hmem]
                  refine nodup_allIds_set_le l pos _ h fun a => ?_
                  rw [hslot]
                  simp only [slotIds, count_filter_ne]
                  split_ifs <;> simp
                · simp only [configuratorStep, handlePanelClick, hslot,
                    if_neg hmem]
                  refine nodup_allIds_remove_set l pos id _ h (fun a ha => ?_) ?_
                  · rw [hslot]
                    simp [slotIds, List.count_append, List.count_singleton',
                      Ne.symm ha]
                  · simp [slotIds, List.count_append,
                      List.count_eq_zero_of_not_mem hmem]
  | tabModeToggle pos =>
    cases hslot : l.get pos with
    | single s =>
        simp only [configuratorStep, toggleTabMode, hslot]
        refine nodup_allIds_set_le l pos _ h fun a => ?_
        rw [hslot]
        simp [slotIds]
    | empty =>
        simp only [configuratorStep, toggleTabMode, hslot]
        refine nodup_allIds_set_le l pos _ h fun a => ?_
        simp [slotIds]
    | group kind ps =>
        cases kind with
        | tiles =>
            simp only [configuratorStep, toggleTabMode, hslot]
            refine nodup_allIds_set_le l pos _ h fun a => ?_
            simp [slotIds]
        | tabs =>
            cases ps with
            | nil =>
                simp only [configuratorStep, toggleTabMode, hslot]
                refine nodup_allIds_set_le l pos _ h fun a => ?_
                simp [slotIds]
            | cons p t =>
                simp only [configuratorStep, toggleTabMode, hslot]
                refine nodup_allIds_set_le l pos _ h fun a => ?_
                rw [hslot]
                simp only [slotIds, List.count_singleton', List.count_cons]
                split_ifs <;> simp_all
  | slotClear pos =>
    simp only [configuratorStep, handleSlotClear]
    refine nodup_allIds_set_le l pos _ h fun a => ?_
    simp [slotIds]
  | tabGroupRemove pos id =>
    cases hslot : l.get pos with
    | single s =>
        simpa [configuratorStep, removePanelFromTabGroup, hslot] using h
    | empty =>
        simpa [configuratorStep, removePanelFromTabGroup, hslot] using h
    | group kind ps =>
        cases kind with
        | tiles =>
            simpa [configuratorStep, removePanelFromTabGroup, hslot] using h
        | tabs =>
            simp only [configuratorStep, removePanelFromTabGroup, hslot]
            refine nodup_allIds_set_le l pos _ h fun a => ?_
            rw [hslot]
            simp only [slotIds, count_filter_ne]
            split_ifs <;> simp

/-- Witness for C6: moving the already-placed panel `nav` into the middle
tab group keeps every panel id unique. -/
theorem configurator_step_preserves_unique_assignment_witness :
    (allIds { left := Slot.single "nav",
              middle := Slot.group GroupKind.tabs ["main", "term"],
              right := Slot.empty }).Nodup ∧
    (allIds (configuratorStep (ConfigOp.panelClick "nav")
      (Selection.slotSel Pos.middle)
      { left := Slot.single "nav",
        middle := Slot.group GroupKind.tabs ["main", "term"],
        right := Slot.empty }).2).Nodup :=
  ⟨by decide, configurator_step_preserves_unique_assignment _ _ _ (by decide)⟩

end Panels
